import Mathlib

/-!
Verification of the q2-types feature-data format validators
(`q2_types/feature_data/_format.py`).

The file models a text file the way Python's file iteration presents it: as a
list of lines, each line carrying its trailing newline character (a final line
may lack one).  Pure Lean functions mirror the Python string operations used by
the validators: `str.split`, `str.lstrip`, `str.strip`.  Validators that raise
`ValidationError` are embedded as functions into `Except`, whose error values
carry exactly the data interpolated into the Python error messages.
-/

namespace Q2Types

/-- Python `s.split(sep)` for a one-character separator, over char lists:
keeps empty fields, and the split of the empty string is `[[]]`. -/
def splitCharList (sep : Char) : List Char → List (List Char)
  | [] => [[]]
  | c :: rest =>
    match splitCharList sep rest with
    | [] => [[]]
    | g :: gs => if c = sep then [] :: g :: gs else (c :: g) :: gs

/-- Python `line.split(chr(9))` on the raw line (newline kept), as used by
`TaxonomyFormat.sniff`. -/
def pySplitTab (s : String) : List String :=
  (splitCharList '\t' s.toList).map (fun cs => String.mk cs)

/-- Python `line.lstrip(chr(32)) == chr(10)`: the blank-line test shared by
`TaxonomyFormat.sniff` and `TSVTaxonomyFormat._check_n_records`.  Only leading
spaces are stripped, so a line containing a tab is never blank. -/
def isBlankLine (line : String) : Bool :=
  line.toList.dropWhile (fun c => c = ' ') == ['\n']

/-- Python `s.strip(chr(10))`: removes newline characters from both ends. -/
def stripNl (l : List Char) : List Char :=
  ((l.dropWhile (fun c => c = '\n')).reverse.dropWhile (fun c => c = '\n')).reverse

/-- `line.strip(chr(10)).split(chr(9))`: the cells of a data or header line in
`TSVTaxonomyFormat._check_n_records`. -/
def rowCells (line : String) : List String :=
  (splitCharList '\t' (stripNl line.toList)).map (fun cs => String.mk cs)

/-! ### TaxonomyFormat.sniff (legacy format) -/

/-- The loop of `TaxonomyFormat.sniff`: `count` non-blank lines have been
consumed so far; the loop runs while `count < 10`, breaks at EOF, skips blank
lines, returns `False` on a line with fewer than 2 tab cells, and finally
returns `count != 0`. -/
def sniffGo : Nat → List String → Bool
  | count, [] => decide (count ≠ 0)
  | count, line :: rest =>
    if 10 ≤ count then decide (count ≠ 0)
    else if isBlankLine line then sniffGo count rest
    else if (pySplitTab line).length < 2 then false
    else sniffGo (count + 1) rest

/-- `TaxonomyFormat.sniff` on a file given as its list of lines. -/
def taxonomySniff (lines : List String) : Bool := sniffGo 0 lines

/-! ### TSVTaxonomyFormat -/

/-- The data of the `ValidationError`s raised by
`TSVTaxonomyFormat._check_n_records`, field for field as interpolated into the
Python messages.  Note the arity error's `nExpected` field is filled by the
code with `len(self.HEADER)`, the length of the class constant, not with the
length of the header actually read. -/
inductive TsvErr where
  | headerMismatch (found : List String) (lineNo : Nat)
  | arityMismatch (lineNo : Nat) (nFound : Nat) (cells : List String) (nExpected : Nat)
  | emptyTable

/-- `TSVTaxonomyFormat.HEADER`. -/
def HEADER : List String := ["Feature ID", "Taxon"]

/-- The loop of `TSVTaxonomyFormat._check_n_records`: `i` lines consumed so
far (error line numbers are `i + 1`), `header` the cells of the header line
once seen, `dataCount` the number of data rows seen. -/
def tsvGo : List String → Nat → Option (List String) → Nat → Except TsvErr Unit
  | [], _, _, dataCount =>
    if dataCount = 0 then .error .emptyTable else .ok ()
  | line :: rest, i, header, dataCount =>
    if isBlankLine line then
      tsvGo rest (i + 1) header dataCount
    else
      match header with
      | none =>
        if (rowCells line).take 2 ≠ HEADER then
          .error (.headerMismatch ((rowCells line).take 2) (i + 1))
        else
          tsvGo rest (i + 1) (some (rowCells line)) dataCount
      | some h =>
        if (rowCells line).length ≠ h.length then
          .error (.arityMismatch (i + 1) (rowCells line).length (rowCells line) HEADER.length)
        else
          tsvGo rest (i + 1) (some h) (dataCount + 1)

/-- `TSVTaxonomyFormat._check_n_records(n)`: with `n = None` the whole file is
scanned (`enumerate(fh)`); with `n = some k` only the first `k` physical lines
are scanned (`zip(range(n), fh)`). -/
def checkNRecords (n : Option Nat) (lines : List String) : Except TsvErr Unit :=
  match n with
  | none => tsvGo lines 0 none 0
  | some k => tsvGo (lines.take k) 0 none 0

/-- The two validation levels of `_validate_`. -/
inductive ValidationLevel where
  | min
  | max

/-- `TSVTaxonomyFormat._validate_(level)`: `n = 10` at level min, `n = None`
at level max. -/
def tsvValidate (level : ValidationLevel) (lines : List String) : Except TsvErr Unit :=
  checkNRecords (match level with | .min => some 10 | .max => none) lines

/-! ### Alphabets of the FASTA format variants -/

/-- Modelled from the spec: the base DNA alphabet of `DNAFASTAFormat`, which is
defined in `q2_types/_util.py` (imported by the source file, not itself under
src/); section 4.1 of the spec gives it as ACGTRYKMSWBDHVN. -/
def dnaAlphabet : String := "ACGTRYKMSWBDHVN"

/-- `RNAFASTAFormat.__init__`: the base RNA alphabet. -/
def rnaAlphabet : String := "ACGURYKMSWBDHVN"

/-- `ProteinFASTAFormat.__init__`: the base protein alphabet. -/
def proteinAlphabet : String := "ABCDEFGHIJKLMNOPQRSTUVWXYZ*"

/-- Python `s.lower()` (character-wise lowercasing, as applied to the
all-ASCII alphabet strings). -/
def lowerStr (s : String) : String := String.mk (s.toList.map Char.toLower)

/-- The mixed-case extension `self.alphabet = self.alphabet + self.alphabet.lower()`
used by `MixedCaseDNAFASTAFormat.__init__` and `MixedCaseRNAFASTAFormat.__init__`. -/
def mixedCaseExtend (s : String) : String := s ++ lowerStr s

/-- `AlignedFASTAFormatMixin._turn_into_alignment`:
`self.alphabet = self.alphabet + ".-"`. -/
def turnIntoAlignment (s : String) : String := s ++ ".-"

/-- The literal `lower_case` string added by `MixedCaseProteinFASTAFormat.__init__`. -/
def asciiLowercase : String := "abcdefghijklmnopqrstuvwxyz"

/-- Alphabet of `MixedCaseProteinFASTAFormat` (the code appends the a-z
literal rather than `self.alphabet.lower()`). -/
def mixedCaseProteinAlphabet : String := proteinAlphabet ++ asciiLowercase

/-- Alphabet of `MixedCaseAlignedDNAFASTAFormat`: the constructor chain runs
`MixedCaseDNAFASTAFormat.__init__` and then `_turn_into_alignment`. -/
def mixedCaseAlignedDNAAlphabet : String := turnIntoAlignment (mixedCaseExtend dnaAlphabet)

/-- Alphabet of `MixedCaseAlignedRNAFASTAFormat`. -/
def mixedCaseAlignedRNAAlphabet : String := turnIntoAlignment (mixedCaseExtend rnaAlphabet)

/-- Alphabet of `MixedCaseAlignedProteinFASTAFormat`. -/
def mixedCaseAlignedProteinAlphabet : String := turnIntoAlignment mixedCaseProteinAlphabet

/-- Every character of `a` occurs in `b`. -/
def charSubset (a b : String) : Bool := a.toList.all (fun c => b.toList.contains c)

/-- `a` and `b` are equal as sets of characters. -/
def sameCharSet (a b : String) : Bool := charSubset a b && charSubset b a

/-! ### DifferentialFormat -/

/-- A column of the metadata table loaded by `qiime2.Metadata.load`, reduced
to what the validator consults: for each cell, whether it is numeric. -/
abbrev DiffColumn := List Bool

/-- A metadata column has numeric type exactly when every value in it is
numeric; `md.filter_columns(column_type=numeric)` keeps exactly these. -/
def isNumericColumn (c : DiffColumn) : Bool := c.all id

/-- Errors surfaced by `DifferentialFormat.validate`, in source order:
re-raised loader failure, the zero-column error, the non-numeric error. -/
inductive DiffErr where
  | loadFailure
  | emptyTable
  | nonNumeric

/-- `DifferentialFormat.validate(self, *args)`: the level argument is absorbed
by `*args` and never consulted.  The external loader's outcome (a
`MetadataFileError`, or the loaded columns) is the input. -/
def differentialValidate (_level : ValidationLevel)
    (loaded : Except Unit (List DiffColumn)) : Except DiffErr Unit :=
  match loaded with
  | .error _ => .error .loadFailure
  | .ok cols =>
    if cols.length = 0 then .error .emptyTable
    else if (cols.filter isNumericColumn).length ≠ cols.length then .error .nonNumeric
    else .ok ()

/-! ### BLAST6Format -/

/-- Outcome of the delegated `skbio.read` call: success, a
`pandas.errors.EmptyDataError`, or any other `ValueError`. -/
inductive Blast6Parse where
  | ok
  | emptyDataError
  | valueError

/-- The two `ValidationError`s of `BLAST6Format.validate`. -/
inductive Blast6Err where
  | emptyFile
  | malformed

/-- `BLAST6Format.validate(self, *args)`: the level argument is absorbed by
`*args` and never consulted; the parser outcome is translated. -/
def blast6Validate (_level : ValidationLevel) : Blast6Parse → Except Blast6Err Unit
  | .ok => .ok ()
  | .emptyDataError => .error .emptyFile
  | .valueError => .error .malformed

/-! ### SequenceCharacteristicsFormat -/

/-- The `pandas.read_csv(sep=tab, index_col=0)` result as the validator sees
it: the number of data rows and the names of the non-key columns. -/
structure SeqCharTable where
  nRows : Nat
  columns : List String

/-- Outcome of the delegated `pd.read_csv` call: an `EmptyDataError` (raised
by pandas only when no columns at all can be parsed from the file), or a
table. -/
inductive SeqCharParse where
  | emptyData
  | table (t : SeqCharTable)

/-- The two `ValidationError`s of `SequenceCharacteristicsFormat.validate`. -/
inductive SeqCharErr where
  | emptyFile
  | tooFewColumns

/-- `SequenceCharacteristicsFormat.validate`: an `EmptyDataError` becomes the
empty-file error; otherwise `not data.columns.any()` (no non-key column with a
truthy, i.e. non-empty, name) becomes the too-few-columns error. -/
def seqCharValidate : SeqCharParse → Except SeqCharErr Unit
  | .emptyData => .error .emptyFile
  | .table t =>
    if t.columns.any (fun c => c != "") then .ok ()
    else .error .tooFewColumns

/-! ### Helper lemmas -/

/-- The numeric-column filter keeps everything iff every column is numeric. -/
theorem numericFilter_all_iff (cols : List DiffColumn) :
    (cols.filter isNumericColumn).length = cols.length ↔
      ∀ c ∈ cols, isNumericColumn c = true := by
  constructor
  · intro h
    have heq : cols.filter isNumericColumn = cols :=
      (List.filter_sublist cols).eq_of_length h
    intro c hc
    rw [← heq] at hc
    exact List.of_mem_filter hc
  · intro h
    rw [List.filter_eq_self.mpr h]

/-- Unrolling `TaxonomyFormat.sniff`'s loop: starting with `count` qualifying
lines already seen, the loop returns true iff some qualifying line is
available (or some were already counted) and every one of the at most
`10 - count` further non-blank lines it reads has at least two tab cells. -/
theorem sniffGo_spec (lines : List String) : ∀ count : Nat,
    sniffGo count lines = true ↔
      ((count ≠ 0 ∨ (lines.filter (fun l => !isBlankLine l)).take (10 - count) ≠ []) ∧
        ∀ l ∈ (lines.filter (fun l => !isBlankLine l)).take (10 - count),
          2 ≤ (pySplitTab l).length) := by
  induction lines with
  | nil =>
    intro count
    simp [sniffGo]
  | cons l rest ih =>
    intro count
    by_cases hc : 10 ≤ count
    · have h10 : 10 - count = 0 := by omega
      have hcnt : count ≠ 0 := by omega
      simp [sniffGo, hc, h10, hcnt]
    · have h10 : 10 - count = (10 - (count + 1)) + 1 := by omega
      by_cases hb : isBlankLine l
      · have hgo : sniffGo count (l :: rest) = sniffGo count rest := by
          simp [sniffGo, hc, hb]
        have hf : (l :: rest).filter (fun x => !isBlankLine x)
            = rest.filter (fun x => !isBlankLine x) := by
          simp [hb]
        rw [hgo, hf]
        exact ih count
      · have hf : (l :: rest).filter (fun x => !isBlankLine x)
            = l :: rest.filter (fun x => !isBlankLine x) := by
          simp [hb]
        by_cases hlen : (pySplitTab l).length < 2
        · have hgo : sniffGo count (l :: rest) = false := by
            simp [sniffGo, hc, hb, hlen]
          rw [hgo, hf, h10, List.take_succ_cons]
          simp only [Bool.false_eq_true, false_iff]
          rintro ⟨-, hall⟩
          have := hall l (by simp)
          omega
        · have hP : 2 ≤ (pySplitTab l).length := Nat.not_lt.mp hlen
          have hgo : sniffGo count (l :: rest) = sniffGo (count + 1) rest := by
            simp [sniffGo, hc, hb, hlen]
          rw [hgo, hf, h10, List.take_succ_cons, ih (count + 1)]
          simp [List.forall_mem_cons, hP]

/-- A run of `TSVTaxonomyFormat._check_n_records` over well-formed data rows
(non-blank, cell count matching the header) consumes them all and succeeds
exactly when at least one data row was counted. -/
theorem tsvGo_all_good (h : List String) :
    ∀ (rows : List String) (i dataCount : Nat),
    (∀ r ∈ rows, isBlankLine r = false ∧ (rowCells r).length = h.length) →
    tsvGo rows i (some h) dataCount =
      if dataCount + rows.length = 0 then .error .emptyTable else .ok () := by
  intro rows
  induction rows with
  | nil =>
    intro i d _
    simp [tsvGo]
  | cons r rest ih =>
    intro i d hg
    obtain ⟨hb, hlen⟩ := hg r (List.mem_cons_self r rest)
    have hrest := fun x hx => hg x (List.mem_cons_of_mem r hx)
    have hstep : tsvGo (r :: rest) i (some h) d = tsvGo rest (i + 1) (some h) (d + 1) := by
      simp [tsvGo, hb, hlen]
    rw [hstep, ih (i + 1) (d + 1) hrest]
    have c1 : ¬(d + 1 + rest.length = 0) := by omega
    have c2 : ¬(d + (r :: rest).length = 0) := by
      simp only [List.length_cons]
      omega
    rw [if_neg c1, if_neg c2]

/-- A run of `TSVTaxonomyFormat._check_n_records` over well-formed data rows
followed by a row of the wrong arity stops at that row with the arity error,
whose line number counts every physical line read and whose expected count is
filled with len(HEADER) = 2. -/
theorem tsvGo_hits_bad (h : List String) (bad : String) (rest2 : List String)
    (hb1 : isBlankLine bad = false)
    (hb2 : (rowCells bad).length ≠ h.length) :
    ∀ (rows : List String) (i dataCount : Nat),
    (∀ r ∈ rows, isBlankLine r = false ∧ (rowCells r).length = h.length) →
    tsvGo (rows ++ bad :: rest2) i (some h) dataCount =
      .error (.arityMismatch (i + rows.length + 1) (rowCells bad).length
        (rowCells bad) HEADER.length) := by
  intro rows
  induction rows with
  | nil =>
    intro i d _
    have hstep : tsvGo (bad :: rest2) i (some h) d =
        .error (.arityMismatch (i + 1) (rowCells bad).length (rowCells bad) HEADER.length) := by
      simp [tsvGo, hb1, hb2]
    simpa using hstep
  | cons r rest ih =>
    intro i d hg
    obtain ⟨hb, hlen⟩ := hg r (List.mem_cons_self r rest)
    have hrest := fun x hx => hg x (List.mem_cons_of_mem r hx)
    have hstep : tsvGo ((r :: rest) ++ bad :: rest2) i (some h) d
        = tsvGo (rest ++ bad :: rest2) (i + 1) (some h) (d + 1) := by
      simp [tsvGo, hb, hlen]
    have hidx : i + 1 + rest.length + 1 = i + (r :: rest).length + 1 := by
      simp only [List.length_cons]
      omega
    rw [hstep, ih (i + 1) (d + 1) hrest, hidx]

/-- Whether `_check_n_records` succeeds does not depend on the running line
index (only the line numbers inside error values do). -/
theorem tsvGo_isOk_index :
    ∀ (lines : List String) (i j : Nat) (h : Option (List String)) (d : Nat),
    (tsvGo lines i h d).isOk = (tsvGo lines j h d).isOk := by
  intro lines
  induction lines with
  | nil => intros; rfl
  | cons l rest ih =>
    intro i j h d
    by_cases hb : isBlankLine l
    · have e1 : tsvGo (l :: rest) i h d = tsvGo rest (i + 1) h d := by
        simp [tsvGo, hb]
      have e2 : tsvGo (l :: rest) j h d = tsvGo rest (j + 1) h d := by
        simp [tsvGo, hb]
      rw [e1, e2]
      exact ih (i + 1) (j + 1) h d
    · cases h with
      | none =>
        by_cases hh : (rowCells l).take 2 = HEADER
        · have e1 : tsvGo (l :: rest) i none d
              = tsvGo rest (i + 1) (some (rowCells l)) d := by
            simp [tsvGo, hb, hh]
          have e2 : tsvGo (l :: rest) j none d
              = tsvGo rest (j + 1) (some (rowCells l)) d := by
            simp [tsvGo, hb, hh]
          rw [e1, e2]
          exact ih (i + 1) (j + 1) (some (rowCells l)) d
        · have e1 : tsvGo (l :: rest) i none d
              = .error (.headerMismatch ((rowCells l).take 2) (i + 1)) := by
            simp [tsvGo, hb, hh]
          have e2 : tsvGo (l :: rest) j none d
              = .error (.headerMismatch ((rowCells l).take 2) (j + 1)) := by
            simp [tsvGo, hb, hh]
          rw [e1, e2]
          rfl
      | some hdr =>
        by_cases hl : (rowCells l).length = hdr.length
        · have e1 : tsvGo (l :: rest) i (some hdr) d
              = tsvGo rest (i + 1) (some hdr) (d + 1) := by
            simp [tsvGo, hb, hl]
          have e2 : tsvGo (l :: rest) j (some hdr) d
              = tsvGo rest (j + 1) (some hdr) (d + 1) := by
            simp [tsvGo, hb, hl]
          rw [e1, e2]
          exact ih (i + 1) (j + 1) (some hdr) (d + 1)
        · have e1 : tsvGo (l :: rest) i (some hdr) d
              = .error (.arityMismatch (i + 1) (rowCells l).length (rowCells l)
                  HEADER.length) := by
            simp [tsvGo, hb, hl]
          have e2 : tsvGo (l :: rest) j (some hdr) d
              = .error (.arityMismatch (j + 1) (rowCells l).length (rowCells l)
                  HEADER.length) := by
            simp [tsvGo, hb, hl]
          rw [e1, e2]
          rfl

/-- Consuming the canonical header line as the first non-blank line installs
its two cells as the header. -/
theorem tsvGo_header_step (ls : List String) (i d : Nat) :
    tsvGo (("Feature ID\tTaxon\n") :: ls) i none d =
      tsvGo ls (i + 1) (some (["Feature ID", "Taxon"])) d := by
  have hb : isBlankLine ("Feature ID\tTaxon\n") = false := rfl
  have hc : rowCells ("Feature ID\tTaxon\n") = ["Feature ID", "Taxon"] := rfl
  simp [tsvGo, hb, hc, HEADER]

/-! ### Claim theorems -/

/-- C9: BLAST6Format.validate translates the delegated parser's failures into
exactly two structured validation errors: an empty-data condition becomes the
empty-file error, any other value-level parse failure becomes the
malformed-record error, and when the parser succeeds validate succeeds. -/
theorem blast6_error_translation (level : ValidationLevel) :
    blast6Validate level .emptyDataError = .error .emptyFile ∧
    blast6Validate level .valueError = .error .malformed ∧
    blast6Validate level .ok = .ok () :=
  ⟨rfl, rfl, rfl⟩

/-- C10: DifferentialFormat.validate and BLAST6Format.validate ignore the
validation level entirely: for every input, the call at any level performs the
identical check with the identical outcome. -/
theorem level_ignored_differential_blast6 (l1 l2 : ValidationLevel)
    (loaded : Except Unit (List DiffColumn)) (p : Blast6Parse) :
    differentialValidate l1 loaded = differentialValidate l2 loaded ∧
    blast6Validate l1 p = blast6Validate l2 p :=
  ⟨rfl, rfl⟩

/-- C3 (code bug): on a 3-column header followed by a 2-cell row, the arity
check fires against the real header length 3, but the raised error reports
the expected count as len(self.HEADER) = 2, not the header's column count —
the message even reads found 2, expected 2 while raising. -/
theorem tsv_arity_error_expected_is_two :
    (rowCells ("Feature ID\tTaxon\tConfidence\n")).length = 3 ∧
    tsvValidate .max [("Feature ID\tTaxon\tConfidence\n"), ("a\tb\n")] =
      .error (.arityMismatch 2 2 (["a", "b"]) 2) :=
  ⟨rfl, rfl⟩

/-- C4 (code bug): TaxonomyFormat.sniff does not ignore comment lines.  A
line starting with the hash character is split on tabs like any data line, so
a tab-free comment makes sniff return false even though the rest of the file
is fine, contradicting the class docstring's claim of comment support. -/
theorem taxonomy_sniff_comment_line_fails :
    taxonomySniff [("#c\n"), ("A\tB\n")] = false ∧
    taxonomySniff [("A\tB\n")] = true :=
  ⟨rfl, rfl⟩

/-- C5 counterexample: a tab-only line is NOT treated as blank.  The blank
test strips only spaces, so a tab-newline line is split into two empty cells:
in TSVTaxonomyFormat it is taken as the header line and fails validation, and
in TaxonomyFormat.sniff it counts as a qualifying line and flips the sniff
result of the empty file from false to true. -/
theorem whitespace_tab_line_counterexample :
    tsvValidate .max [("\t\n"), ("Feature ID\tTaxon\n"), ("a\tb\n")] =
      .error (.headerMismatch (["", ""]) 1) ∧
    taxonomySniff [("\t\n")] = true ∧
    taxonomySniff ([] : List String) = false :=
  ⟨rfl, rfl, rfl⟩

/-- C6 counterexample: a successfully parsed table with zero rows (e.g. a
header-only file: pandas raises EmptyDataError only when no columns at all
can be parsed) passes SequenceCharacteristicsFormat.validate; the claimed
empty-table failure on zero rows does not happen. -/
theorem seqchar_zero_rows_ok :
    seqCharValidate (.table ⟨0, [("length")]⟩) = .ok () :=
  rfl

/-- C6 (amended): SequenceCharacteristicsFormat.validate fails with the
empty-file error exactly when the delegated parser raises the empty-data
condition — a parsed table with zero rows does not by itself fail; it fails
with the too-few-columns error exactly when no non-key column with a truthy
(non-empty) name remains, in particular whenever zero non-key columns remain;
otherwise it succeeds. -/
theorem seqchar_validate_characterization (r : SeqCharParse) :
    (seqCharValidate r = .error .emptyFile ↔ r = .emptyData) ∧
    (seqCharValidate r = .error .tooFewColumns ↔
      ∃ t, r = .table t ∧ t.columns.any (fun c => c != "") = false) ∧
    (seqCharValidate r = .ok () ↔
      ∃ t, r = .table t ∧ t.columns.any (fun c => c != "") = true) ∧
    (∀ n : Nat, seqCharValidate (.table ⟨n, []⟩) = .error .tooFewColumns) := by
  cases r with
  | emptyData =>
    exact ⟨by simp [seqCharValidate], by simp [seqCharValidate],
      by simp [seqCharValidate], fun n => rfl⟩
  | table t =>
    cases hcond : t.columns.any (fun c => c != "") with
    | false =>
      have hv : seqCharValidate (.table t) = .error .tooFewColumns := by
        simp [seqCharValidate, hcond]
      refine ⟨?_, ?_, ?_, fun n => rfl⟩
      · rw [hv]; simp
      · rw [hv]; simp; simpa using hcond
      · rw [hv]; simp; simpa using hcond
    | true =>
      have hv : seqCharValidate (.table t) = .ok () := by
        simp [seqCharValidate, hcond]
      refine ⟨?_, ?_, ?_, fun n => rfl⟩
      · rw [hv]; simp
      · rw [hv]; simp; simpa using hcond
      · rw [hv]; simp; simpa using hcond

/-- C8: DifferentialFormat.validate, after the loader succeeds, fails with
the empty-table error exactly when the table has zero columns; otherwise it
fails with the non-numeric error exactly when the count of all-numeric
columns is below the total column count, which happens exactly when some
column contains a non-numeric value; when at least one column exists and all
are numeric it succeeds. -/
theorem differential_validate_characterization (level : ValidationLevel)
    (cols : List DiffColumn) :
    (differentialValidate level (.ok cols) = .error .emptyTable ↔ cols = []) ∧
    (differentialValidate level (.ok cols) = .error .nonNumeric ↔
      cols ≠ [] ∧ ∃ c ∈ cols, isNumericColumn c = false) ∧
    (differentialValidate level (.ok cols) = .ok () ↔
      cols ≠ [] ∧ ∀ c ∈ cols, isNumericColumn c = true) ∧
    ((cols.filter isNumericColumn).length ≠ cols.length ↔
      (cols.filter isNumericColumn).length < cols.length) ∧
    ((cols.filter isNumericColumn).length ≠ cols.length ↔
      ∃ c ∈ cols, isNumericColumn c = false) := by
  have hle : (cols.filter isNumericColumn).length ≤ cols.length :=
    List.length_filter_le _ _
  have hns := numericFilter_all_iff cols
  have hex : (cols.filter isNumericColumn).length ≠ cols.length ↔
      ∃ c ∈ cols, isNumericColumn c = false := by
    rw [Ne, hns]
    push_neg
    simp [Bool.not_eq_true]
  by_cases hnil : cols = []
  · subst hnil
    simp [differentialValidate]
  · have hpos : cols.length ≠ 0 := by
      simpa using (List.length_pos.mpr hnil).ne'
    by_cases hf : (cols.filter isNumericColumn).length = cols.length
    · have hall : ∀ c ∈ cols, isNumericColumn c = true := hns.mp hf
      have hv : differentialValidate level (.ok cols) = .ok () := by
        simp [differentialValidate, hpos, hf]
      refine ⟨?_, ?_, ?_, by omega, hex⟩
      · rw [hv]; simp [hnil]
      · rw [hv]
        constructor
        · intro h
          exact absurd h (by simp)
        · rintro ⟨-, c, hc, hbad⟩
          rw [hall c hc] at hbad
          cases hbad
      · rw [hv]
        exact iff_of_true rfl ⟨hnil, hall⟩
    · have hbadex : ∃ c ∈ cols, isNumericColumn c = false := hex.mp hf
      have hv : differentialValidate level (.ok cols) = .error .nonNumeric := by
        simp [differentialValidate, hpos, hf]
      refine ⟨?_, ?_, ?_, by omega, hex⟩
      · rw [hv]; simp [hnil]
      · rw [hv]
        exact iff_of_true rfl ⟨hnil, hbadex⟩
      · rw [hv]
        constructor
        · intro h
          exact absurd h (by simp)
        · rintro ⟨-, hall⟩
          exact absurd (hns.mpr hall) hf

/-- C7: for each base alphabet (DNA, RNA, Protein), extending by the
lowercase image and extending by the gap symbols commute as operations on
character sets, both orders give base, lowercase image and the two gap
characters, and each concrete mixed-case aligned format's alphabet, built
exactly as its constructor chain builds it, equals that union as a character
set. -/
theorem mixedcase_aligned_alphabets_commute :
    (sameCharSet (mixedCaseExtend (turnIntoAlignment dnaAlphabet))
        (turnIntoAlignment (mixedCaseExtend dnaAlphabet)) = true ∧
      sameCharSet (turnIntoAlignment (mixedCaseExtend dnaAlphabet))
        (dnaAlphabet ++ lowerStr dnaAlphabet ++ ".-") = true ∧
      sameCharSet mixedCaseAlignedDNAAlphabet
        (dnaAlphabet ++ lowerStr dnaAlphabet ++ ".-") = true) ∧
    (sameCharSet (mixedCaseExtend (turnIntoAlignment rnaAlphabet))
        (turnIntoAlignment (mixedCaseExtend rnaAlphabet)) = true ∧
      sameCharSet (turnIntoAlignment (mixedCaseExtend rnaAlphabet))
        (rnaAlphabet ++ lowerStr rnaAlphabet ++ ".-") = true ∧
      sameCharSet mixedCaseAlignedRNAAlphabet
        (rnaAlphabet ++ lowerStr rnaAlphabet ++ ".-") = true) ∧
    (sameCharSet (mixedCaseExtend (turnIntoAlignment proteinAlphabet))
        (turnIntoAlignment (mixedCaseExtend proteinAlphabet)) = true ∧
      sameCharSet (turnIntoAlignment (mixedCaseExtend proteinAlphabet))
        (proteinAlphabet ++ lowerStr proteinAlphabet ++ ".-") = true ∧
      sameCharSet mixedCaseAlignedProteinAlphabet
        (proteinAlphabet ++ lowerStr proteinAlphabet ++ ".-") = true) := by
  decide

/-- The concrete file used by the C1 counterexample: one blank line, the
correct header, eight well-formed data rows, then a malformed ninth data row
on physical line 11. -/
def c1File : List String :=
  ("\n") :: ("Feature ID\tTaxon\n") :: (List.replicate 8 ("a\tb\n") ++ [("x\n")])

/-- C1 counterexample: with a blank first line, the malformed ninth data row
sits on physical line 11, inside the first 10 data lines but outside the
first 10 physical lines.  If min stopped after the first 10 data lines with
blanks and the header not counting, min would scan it and fail; the code's
min validates this file, because the cap of 10 counts physical lines. -/
theorem tsv_min_cap_counterexample :
    tsvValidate .min c1File = .ok () ∧
    tsvValidate .max c1File = .error (.arityMismatch 11 1 (["x"]) 2) :=
  ⟨rfl, rfl⟩

/-- C1 (amended): validate at level min stops after the first 10 physical
lines — blank lines and the header line DO count toward the 10 — while max
scans to EOF; consequently for every file made of the correct header line,
then at least 11 well-formed two-cell data rows, then a data row of the wrong
arity, then anything, validate(min) succeeds while validate(max) fails with
the arity error at that row. -/
theorem tsv_min_counts_physical_lines (rows rest : List String) (bad : String)
    (hrows : ∀ r ∈ rows, isBlankLine r = false ∧ (rowCells r).length = 2)
    (hlen : 11 ≤ rows.length)
    (hbad1 : isBlankLine bad = false)
    (hbad2 : (rowCells bad).length ≠ 2) :
    tsvValidate .min (("Feature ID\tTaxon\n") :: (rows ++ bad :: rest)) = .ok () ∧
    tsvValidate .max (("Feature ID\tTaxon\n") :: (rows ++ bad :: rest)) =
      .error (.arityMismatch (rows.length + 2) (rowCells bad).length (rowCells bad) 2) := by
  constructor
  · have hmin0 : tsvValidate .min (("Feature ID\tTaxon\n") :: (rows ++ bad :: rest))
        = tsvGo ((("Feature ID\tTaxon\n") :: (rows ++ bad :: rest)).take 10) 0 none 0 := rfl
    have h9 : (rows ++ bad :: rest).take 9 = rows.take 9 :=
      List.take_append_of_le_length (by omega)
    have htake : (("Feature ID\tTaxon\n") :: (rows ++ bad :: rest)).take 10
        = ("Feature ID\tTaxon\n") :: rows.take 9 := by
      rw [show (10 : Nat) = 9 + 1 from rfl, List.take_succ_cons, h9]
    rw [hmin0, htake, tsvGo_header_step]
    rw [tsvGo_all_good (["Feature ID", "Taxon"]) (rows.take 9) 1 0
      (fun r hr => hrows r (List.mem_of_mem_take hr))]
    have hl9 : (rows.take 9).length = 9 := by
      rw [List.length_take]
      omega
    rw [if_neg (by omega)]
  · have hmax0 : tsvValidate .max (("Feature ID\tTaxon\n") :: (rows ++ bad :: rest))
        = tsvGo (("Feature ID\tTaxon\n") :: (rows ++ bad :: rest)) 0 none 0 := rfl
    rw [hmax0, tsvGo_header_step]
    rw [tsvGo_hits_bad (["Feature ID", "Taxon"]) bad rest hbad1 hbad2 rows 1 0 hrows]
    have hidx : 1 + rows.length + 1 = rows.length + 2 := by omega
    rw [hidx]
    rfl

/-- Witness for the amended C1 theorem at a concrete file: the header, eleven
rows, then a malformed row on physical line 13. -/
theorem tsv_min_counts_physical_lines_w :
    tsvValidate .min (("Feature ID\tTaxon\n")
        :: (List.replicate 11 ("a\tb\n") ++ ("x\n") :: ([] : List String))) = .ok () ∧
    tsvValidate .max (("Feature ID\tTaxon\n")
        :: (List.replicate 11 ("a\tb\n") ++ ("x\n") :: ([] : List String))) =
      .error (.arityMismatch ((List.replicate 11 ("a\tb\n")).length + 2)
        (rowCells ("x\n")).length (rowCells ("x\n")) 2) :=
  tsv_min_counts_physical_lines (List.replicate 11 ("a\tb\n")) [] ("x\n")
    (by decide) (by decide) (by decide) (by decide)

/-- C2: TaxonomyFormat.sniff reads up to the first 10 non-blank lines,
splitting each on tab; it returns true exactly when at least one such line
exists and every one of the at most 10 non-blank lines it reads has at least
2 cells (so it returns false as soon as one of them has fewer than 2 cells,
and false when no qualifying line precedes EOF).  The embedding is a total
function, so sniff never raises. -/
theorem taxonomy_sniff_characterization (lines : List String) :
    taxonomySniff lines = true ↔
      ((lines.filter (fun l => !isBlankLine l)).take 10 ≠ [] ∧
        ∀ l ∈ (lines.filter (fun l => !isBlankLine l)).take 10,
          2 ≤ (pySplitTab l).length) := by
  have h := sniffGo_spec lines 0
  simpa [taxonomySniff] using h

/-- C5 (amended): a line of zero or more spaces followed by a newline is
blank for both validators and is skipped: it never becomes a header or data
row and never by itself causes a failure or changes the sniff verdict.
All-whitespace lines containing a tab are not blank (the blank test strips
only spaces) and are split into cells like any other line; under the min
level a blank line still consumes one slot of the 10-physical-line cap. -/
theorem space_only_blank_lines_ignored (l : String) (rest : List String)
    (hb : isBlankLine l = true) :
    taxonomySniff (l :: rest) = taxonomySniff rest ∧
    (checkNRecords none (l :: rest)).isOk = (checkNRecords none rest).isOk := by
  constructor
  · simp [taxonomySniff, sniffGo, hb]
  · have e1 : checkNRecords none (l :: rest) = tsvGo rest 1 none 0 := by
      simp [checkNRecords, tsvGo, hb]
    rw [e1]
    exact tsvGo_isOk_index rest 1 0 none 0

/-- Witness for the amended C5 theorem at a concrete blank line. -/
theorem space_only_blank_lines_ignored_w :
    taxonomySniff ((" \n") :: [("A\tB\n")]) = taxonomySniff [("A\tB\n")] ∧
    (checkNRecords none ((" \n") :: [("A\tB\n")])).isOk
      = (checkNRecords none [("A\tB\n")]).isOk :=
  space_only_blank_lines_ignored (" \n") [("A\tB\n")] (by decide)

end Q2Types
